import Mathlib

/-!
Shallow embedding of the daily-temperature-wave engine
(custom_components/daily_temperature_wave): the temperature utilities
(temperature.py), the solar-clock helpers (solar.py), and the sine-wave
sensor computations (sensor.py).  Exact arithmetic models the Python
floats: rationals for the unit converter, quantizer and solar clock,
reals for the sine-wave paths.
-/

/-- Embedding of Python's str.upper() for the ASCII strings used as unit
tags ("C", "F", "metric", "imperial"): uppercase every character. -/
def py_upper (s : String) : String := String.mk (s.data.map Char.toUpper)

/-- Embedding of convert_to_celsius from utils/temperature.py: if the
uppercased unit is "F", apply (value - 32) * 5 / 9, otherwise identity. -/
def convert_to_celsius {K : Type} [Field K] (value : K) (unit : String) : K :=
  if py_upper unit = "F" then (value - 32) * 5 / 9 else value

/-- Embedding of convert_from_celsius from utils/temperature.py: if the
uppercased target unit is "F", apply value * 9 / 5 + 32, otherwise identity. -/
def convert_from_celsius {K : Type} [Field K] (value : K) (target_unit : String) : K :=
  if py_upper target_unit = "F" then value * 9 / 5 + 32 else value

/-- Embedding of Python's built-in round() on an exact value: round half
to even, returning an integer. -/
def pythonRound {K : Type} [LinearOrderedField K] [FloorRing K] (x : K) : ℤ :=
  if x - ⌊x⌋ < 1/2 then ⌊x⌋
  else if 1/2 < x - ⌊x⌋ then ⌊x⌋ + 1
  else if ⌊x⌋ % 2 = 0 then ⌊x⌋ else ⌊x⌋ + 1

/-- Embedding of round_to_step from utils/temperature.py: if step <= 0
return the value unchanged, else round(value / step) * step. -/
def round_to_step {K : Type} [LinearOrderedField K] [FloorRing K] (value step : K) : K :=
  if step ≤ 0 then value else (pythonRound (value / step) : K) * step

/-- Wall-clock hours as in solar.py: hour + minute / 60. -/
def time_to_hours (hour minute : ℕ) : ℚ := (hour : ℚ) + (minute : ℚ) / 60

/-- Normalization step of get_current_solar_position in utils/solar.py:
if raw > 12 subtract 24, else if raw < -12 add 24, else keep raw. -/
def normalize_to_half_day (raw : ℚ) : ℚ :=
  if raw > 12 then raw - 24 else if raw < -12 then raw + 24 else raw

/-- Embedding of get_current_solar_position from utils/solar.py, as a
function of the current wall-clock hour/minute and the solar-noon
hour/minute: the normalized difference of their fractional hours. -/
def get_current_solar_position (ch cm sh sm : ℕ) : ℚ :=
  normalize_to_half_day (time_to_hours ch cm - time_to_hours sh sm)

/-- Embedding of the pure core of is_temperature_rising from
utils/solar.py: with effective_period = 12 * wave_spread, the result is
-effective_period / 2 <= hours_from_noon <= effective_period / 2. -/
def is_temperature_rising (hours_from_noon wave_spread : ℚ) : Bool :=
  decide (-(12 * wave_spread) / 2 ≤ hours_from_noon ∧
    hours_from_noon ≤ (12 * wave_spread) / 2)

/-- Sensor configuration as read in DailyTemperatureWaveSensor.__init__:
min/max temperature already normalized to Celsius, the wave spread, and
the configured unit_system string ("metric" or "imperial" per the config
flow schema). -/
structure WaveConfig where
  min_temp_c : ℝ
  max_temp_c : ℝ
  wave_spread : ℝ
  unit_system : String

/-- Sine value of _calculate_current_temperature in sensor.py:
sin(pi * hours_from_noon / (12 * wave_spread)). -/
noncomputable def sine_value (cfg : WaveConfig) (hours_from_noon : ℝ) : ℝ :=
  Real.sin (Real.pi * hours_from_noon / (12 * cfg.wave_spread))

/-- Normalized wave position of sensor.py: (sine_value + 1) / 2. -/
noncomputable def temp_normalized (cfg : WaveConfig) (hours_from_noon : ℝ) : ℝ :=
  (sine_value cfg hours_from_noon + 1) / 2

/-- Celsius temperature of sensor.py:
min_temp_c + (max_temp_c - min_temp_c) * temp_normalized. -/
noncomputable def current_temp_c (cfg : WaveConfig) (hours_from_noon : ℝ) : ℝ :=
  cfg.min_temp_c + (cfg.max_temp_c - cfg.min_temp_c) * temp_normalized cfg hours_from_noon

/-- Embedding of _calculate_current_temperature (stepwise=False path) in
sensor.py, as a function of the solar position: the Celsius wave value
converted to display units via convert_from_celsius(_, unit_system). -/
noncomputable def calculate_current_temperature (cfg : WaveConfig) (hours_from_noon : ℝ) : ℝ :=
  convert_from_celsius (current_temp_c cfg hours_from_noon) cfg.unit_system

open Classical in
/-- Error behavior of _calculate_current_temperature: Python raises
ZeroDivisionError exactly when the divisor 12 * wave_spread is zero;
otherwise the computation completes and returns the temperature.  No
other error path exists in the source (there is no config validation). -/
noncomputable def calculate_current_temperature_checked (cfg : WaveConfig)
    (hours_from_noon : ℝ) : Except String ℝ :=
  if (12 : ℝ) * cfg.wave_spread = 0 then Except.error ("ZeroDivisionError")
  else Except.ok (calculate_current_temperature cfg hours_from_noon)

/-- Embedding of Python's round(x, 1) used on forecast records: round
half to even at one decimal place. -/
noncomputable def round1 (x : ℝ) : ℝ := (pythonRound (x * 10) : ℝ) / 10

/-- One curve point of _generate_visual_data in sensor.py: for
hour in 0..24, hours_from_noon = hour - 12, x = hour * 10 and
y = 100 - (temp_display - min_temp_c) * 100 / (max_temp_c - min_temp_c),
where temp_display = convert_from_celsius(temp_c, unit_system). -/
noncomputable def visual_point (cfg : WaveConfig) (hour : ℕ) : ℝ × ℝ :=
  ((hour : ℝ) * 10,
    100 - (convert_from_celsius (current_temp_c cfg ((hour : ℝ) - 12)) cfg.unit_system -
      cfg.min_temp_c) * 100 / (cfg.max_temp_c - cfg.min_temp_c))

/-- The 25 curve points of _generate_visual_data (hours 0..24). -/
noncomputable def visual_points (cfg : WaveConfig) : List (ℝ × ℝ) :=
  (List.range 25).map (visual_point cfg)

/-- Daily minimum of _generate_7d_forecast in sensor.py (Celsius, before
rounding): sampled at the fixed sine argument pi * 12 / (12 * wave_spread). -/
noncomputable def forecast_temp_c_min (cfg : WaveConfig) : ℝ :=
  cfg.min_temp_c + (cfg.max_temp_c - cfg.min_temp_c) *
    ((Real.sin (Real.pi * 12 / (12 * cfg.wave_spread)) + 1) / 2)

/-- Daily maximum of _generate_7d_forecast in sensor.py (Celsius, before
rounding): sampled at sine argument 0. -/
noncomputable def forecast_temp_c_max (cfg : WaveConfig) : ℝ :=
  cfg.min_temp_c + (cfg.max_temp_c - cfg.min_temp_c) * ((Real.sin 0 + 1) / 2)

/-- One (min, max) record of _generate_7d_forecast (stepwise=False path):
the daily extrema converted to display units and rounded to one decimal. -/
noncomputable def forecast_7d_record (cfg : WaveConfig) : ℝ × ℝ :=
  (round1 (convert_from_celsius (forecast_temp_c_min cfg) cfg.unit_system),
    round1 (convert_from_celsius (forecast_temp_c_max cfg) cfg.unit_system))

/-- Temperature content of _generate_7d_forecast: seven records, all
sharing the same day-independent (min, max) pair. -/
noncomputable def generate_7d_forecast (cfg : WaveConfig) : List (ℝ × ℝ) :=
  (List.range 7).map (fun _ => forecast_7d_record cfg)

/-! Helper lemmas shared by the claim theorems. -/

theorem convert_from_celsius_eq_self {K : Type} [Field K] (v : K) (u : String)
    (hu : py_upper u ≠ "F") : convert_from_celsius v u = v := by
  rw [convert_from_celsius, if_neg hu]

theorem pythonRound_intCast {K : Type} [LinearOrderedField K] [FloorRing K] (n : ℤ) :
    pythonRound (n : K) = n := by
  rw [pythonRound, Int.floor_intCast, if_pos]
  rw [sub_self]
  norm_num

theorem pythonRound_of_lt {K : Type} [LinearOrderedField K] [FloorRing K]
    (x : K) (n : ℤ) (hf : ⌊x⌋ = n) (h : x - (n : K) < 1/2) : pythonRound x = n := by
  rw [pythonRound, hf, if_pos h]

theorem pythonRound_of_gt {K : Type} [LinearOrderedField K] [FloorRing K]
    (x : K) (n : ℤ) (hf : ⌊x⌋ = n) (h : 1/2 < x - (n : K)) : pythonRound x = n + 1 := by
  rw [pythonRound, hf, if_neg (by linarith), if_pos h]

theorem temp_normalized_nonneg (cfg : WaveConfig) (h : ℝ) : 0 ≤ temp_normalized cfg h := by
  rw [temp_normalized, sine_value]
  have := Real.neg_one_le_sin (Real.pi * h / (12 * cfg.wave_spread))
  linarith

theorem temp_normalized_le_one (cfg : WaveConfig) (h : ℝ) : temp_normalized cfg h ≤ 1 := by
  rw [temp_normalized, sine_value]
  have := Real.sin_le_one (Real.pi * h / (12 * cfg.wave_spread))
  linarith

theorem current_temp_c_at_zero (cfg : WaveConfig) :
    current_temp_c cfg 0 = (cfg.min_temp_c + cfg.max_temp_c) / 2 := by
  rw [current_temp_c, temp_normalized, sine_value,
    show Real.pi * 0 / (12 * cfg.wave_spread) = 0 by ring, Real.sin_zero]
  ring

theorem current_temp_c_at_twelve (cfg : WaveConfig) (hs : cfg.wave_spread = 1) :
    current_temp_c cfg 12 = (cfg.min_temp_c + cfg.max_temp_c) / 2 := by
  rw [current_temp_c, temp_normalized, sine_value, hs,
    show Real.pi * 12 / (12 * 1) = Real.pi by ring, Real.sin_pi]
  ring

theorem current_temp_c_at_neg_six (cfg : WaveConfig) (hs : cfg.wave_spread = 1) :
    current_temp_c cfg (-6) = cfg.min_temp_c := by
  rw [current_temp_c, temp_normalized, sine_value, hs,
    show Real.pi * (-6) / (12 * 1) = -(Real.pi / 2) by ring, Real.sin_neg,
    Real.sin_pi_div_two]
  ring

theorem current_temp_c_at_six (cfg : WaveConfig) (hs : cfg.wave_spread = 1) :
    current_temp_c cfg 6 = cfg.max_temp_c := by
  rw [current_temp_c, temp_normalized, sine_value, hs,
    show Real.pi * 6 / (12 * 1) = Real.pi / 2 by ring, Real.sin_pi_div_two]
  ring

theorem calc_temp_no_convert (cfg : WaveConfig) (h : ℝ)
    (hu : py_upper cfg.unit_system ≠ "F") :
    calculate_current_temperature cfg h = current_temp_c cfg h := by
  rw [calculate_current_temperature, convert_from_celsius_eq_self _ _ hu]

/-! Claims C5, C6, C7: the unit converter and the step quantizer. -/

/-- Claim C5: for every finite value x and every unit U in {C, F},
convert_from_celsius (convert_to_celsius x U) U = x — the converter
round-trips exactly. -/
theorem C5_converter_roundtrip (x : ℚ) (u : String) (_hu : u = "C" ∨ u = "F") :
    convert_from_celsius (convert_to_celsius x u) u = x := by
  rw [convert_to_celsius, convert_from_celsius]
  by_cases hf : py_upper u = "F"
  · rw [if_pos hf, if_pos hf]
    ring
  · rw [if_neg hf, if_neg hf]

/-- Witness for C5 at x = 212, U = "F". -/
theorem C5_converter_roundtrip_witness :
    convert_from_celsius (convert_to_celsius (212 : ℚ) ("F")) ("F") = 212 :=
  C5_converter_roundtrip 212 ("F") (Or.inr rfl)

/-- Claim C6: for every value x and every step ≤ 0 (including 0),
round_to_step x step = x — the documented no-quantization escape hatch. -/
theorem C6_round_to_step_identity (x step : ℚ) (hs : step ≤ 0) :
    round_to_step x step = x := by
  rw [round_to_step, if_pos hs]

/-- Witness for C6 at x = 20.3, step = 0. -/
theorem C6_round_to_step_identity_witness : round_to_step (20.3 : ℚ) 0 = 20.3 :=
  C6_round_to_step_identity 20.3 0 (by norm_num)

/-- Claim C7: for every value x and every step s > 0, round_to_step is
idempotent: round_to_step (round_to_step x s) s = round_to_step x s. -/
theorem C7_round_to_step_idempotent (x s : ℚ) (hs : 0 < s) :
    round_to_step (round_to_step x s) s = round_to_step x s := by
  have hns : ¬ s ≤ 0 := not_le.mpr hs
  simp only [round_to_step, if_neg hns]
  rw [mul_div_cancel_right₀ _ (ne_of_gt hs), pythonRound_intCast]

/-- Witness for C7 at x = 20.3, s = 0.5. -/
theorem C7_round_to_step_idempotent_witness :
    round_to_step (round_to_step (20.3 : ℚ) 0.5) 0.5 = round_to_step (20.3 : ℚ) 0.5 :=
  C7_round_to_step_idempotent 20.3 0.5 (by norm_num)

/-! Claims C1, C2: exact wave values at hours_from_noon = 0 and 12.
The source (and its own test test_sine_wave_calculation) puts the
midpoint at solar noon, the minimum at -6 and the maximum at +6: the
sine argument is zero at noon, so the normalized position is 1/2. -/

/-- Claim C1 (amended): for every valid configuration (min < max,
spread > 0, metric display), the point-reading temperature at
hours_from_noon = 0 equals the midpoint (min + max) / 2 — not the
configured maximum.  For min=20C, max=30C this is 25.0, not 30.0. -/
theorem C1_temperature_at_noon_is_midpoint (cfg : WaveConfig)
    (_hmm : cfg.min_temp_c < cfg.max_temp_c) (_hs : 0 < cfg.wave_spread)
    (hu : cfg.unit_system = "metric") :
    calculate_current_temperature cfg 0 = (cfg.min_temp_c + cfg.max_temp_c) / 2 := by
  rw [calc_temp_no_convert cfg 0 (by rw [hu]; decide), current_temp_c_at_zero]

/-- Witness for C1 at the configuration min=20C, max=30C, spread=1. -/
theorem C1_temperature_at_noon_is_midpoint_witness :
    calculate_current_temperature ⟨20, 30, 1, "metric"⟩ 0 = ((20 : ℝ) + 30) / 2 :=
  C1_temperature_at_noon_is_midpoint ⟨20, 30, 1, "metric"⟩ (by norm_num) (by norm_num) rfl

/-- Counterexample for C1 as stated: with min=20C, max=30C, spread=1 the
point reading at hours_from_noon = 0 is 25.0, which is not the configured
maximum 30.0. -/
theorem C1_temperature_at_noon_cex :
    calculate_current_temperature ⟨20, 30, 1, "metric"⟩ 0 = 25 ∧ (25 : ℝ) ≠ 30 := by
  constructor
  · rw [calc_temp_no_convert _ 0 (by decide), current_temp_c_at_zero]
    norm_num
  · norm_num

/-- Claim C2 (amended): with min=20C, max=30C, spread=1 (metric display)
the point reading at hours_from_noon = 12 is the midpoint 25.0, not the
configured minimum 20.0; the minimum is attained at hours_from_noon = -6
instead (and the maximum at +6). -/
theorem C2_temperature_at_twelve_is_midpoint (cfg : WaveConfig)
    (_hmm : cfg.min_temp_c < cfg.max_temp_c) (hs : cfg.wave_spread = 1)
    (hu : cfg.unit_system = "metric") :
    calculate_current_temperature cfg 12 = (cfg.min_temp_c + cfg.max_temp_c) / 2 ∧
      calculate_current_temperature cfg (-6) = cfg.min_temp_c ∧
      calculate_current_temperature cfg 6 = cfg.max_temp_c := by
  have hf : py_upper cfg.unit_system ≠ "F" := by rw [hu]; decide
  refine ⟨?_, ?_, ?_⟩
  · rw [calc_temp_no_convert cfg 12 hf, current_temp_c_at_twelve cfg hs]
  · rw [calc_temp_no_convert cfg (-6) hf, current_temp_c_at_neg_six cfg hs]
  · rw [calc_temp_no_convert cfg 6 hf, current_temp_c_at_six cfg hs]

/-- Witness for C2 at the configuration min=20C, max=30C, spread=1. -/
theorem C2_temperature_at_twelve_is_midpoint_witness :
    calculate_current_temperature ⟨20, 30, 1, "metric"⟩ 12 = ((20 : ℝ) + 30) / 2 ∧
      calculate_current_temperature ⟨20, 30, 1, "metric"⟩ (-6) = 20 ∧
      calculate_current_temperature ⟨20, 30, 1, "metric"⟩ 6 = 30 :=
  C2_temperature_at_twelve_is_midpoint ⟨20, 30, 1, "metric"⟩ (by norm_num) rfl rfl

/-- Counterexample for C2 as stated: with min=20C, max=30C, spread=1 the
point reading at hours_from_noon = 12 is 25.0, not the minimum 20.0. -/
theorem C2_temperature_at_twelve_cex :
    calculate_current_temperature ⟨20, 30, 1, "metric"⟩ 12 = 25 ∧ (25 : ℝ) ≠ 20 := by
  constructor
  · rw [calc_temp_no_convert _ 12 (by decide), current_temp_c_at_twelve _ rfl]
    norm_num
  · norm_num

/-! Claim C3: config validation.  The source performs none: there is no
ConfigError anywhere, an inverted range (min >= max) is computed
normally, and wave_spread = 0 surfaces only as a ZeroDivisionError in
the middle of the sine computation. -/

/-- Claim C3 (amended): the engine performs no configuration validation
and defines no ConfigError.  For every configuration with
max_temp_c ≤ min_temp_c but wave_spread ≠ 0 (metric display), the point
computation completes normally and returns a temperature inside the
inverted range [max, min] — a full result is produced for the invalid
config instead of an error. -/
theorem C3_no_config_validation (cfg : WaveConfig) (h : ℝ)
    (hinv : cfg.max_temp_c ≤ cfg.min_temp_c) (hs : cfg.wave_spread ≠ 0)
    (hu : cfg.unit_system = "metric") :
    ∃ t, calculate_current_temperature_checked cfg h = Except.ok t ∧
      cfg.max_temp_c ≤ t ∧ t ≤ cfg.min_temp_c := by
  refine ⟨calculate_current_temperature cfg h, ?_, ?_, ?_⟩
  · rw [calculate_current_temperature_checked, if_neg (by simpa using hs)]
  · rw [calc_temp_no_convert cfg h (by rw [hu]; decide)]
    have h0 := temp_normalized_nonneg cfg h
    have h1 := temp_normalized_le_one cfg h
    rw [current_temp_c]
    nlinarith [mul_nonneg (sub_nonneg.mpr hinv) (sub_nonneg.mpr h1)]
  · rw [calc_temp_no_convert cfg h (by rw [hu]; decide)]
    have h0 := temp_normalized_nonneg cfg h
    have h1 := temp_normalized_le_one cfg h
    rw [current_temp_c]
    nlinarith [mul_nonneg (sub_nonneg.mpr hinv) h0]

/-- Witness for C3 at the inverted configuration min=30C, max=20C,
spread=1, at solar noon. -/
theorem C3_no_config_validation_witness :
    ∃ t, calculate_current_temperature_checked ⟨30, 20, 1, "metric"⟩ 0 = Except.ok t ∧
      (20 : ℝ) ≤ t ∧ t ≤ 30 :=
  C3_no_config_validation ⟨30, 20, 1, "metric"⟩ 0 (by norm_num) (by norm_num) rfl

/-- Counterexample for C3 as stated: the invalid configuration
min=30C, max=20C (min ≥ max), spread=1 does not yield any ConfigError —
the point computation returns the ordinary result 25.0. -/
theorem C3_no_config_validation_cex :
    calculate_current_temperature_checked ⟨30, 20, 1, "metric"⟩ 0 = Except.ok 25 := by
  rw [calculate_current_temperature_checked, if_neg (by norm_num)]
  rw [calc_temp_no_convert _ 0 (by decide), current_temp_c_at_zero]
  norm_num

/-! Claim C4: the curve-sampler points.  For the configurations the
config flow admits (unit_system "metric" or "imperial"),
convert_from_celsius is the identity, so every sampled y stays in
[0, 100] and every x is hour * 10. -/

theorem visual_point_y_formula (cfg : WaveConfig) (hour : ℕ)
    (hd : cfg.max_temp_c - cfg.min_temp_c ≠ 0)
    (hf : py_upper cfg.unit_system ≠ "F") :
    (visual_point cfg hour).2 = 100 - 100 * temp_normalized cfg ((hour : ℝ) - 12) := by
  simp only [visual_point]
  rw [convert_from_celsius_eq_self _ _ hf, current_temp_c]
  field_simp
  ring

/-- Claim C4: for every valid configuration (min < max, spread > 0,
unit_system "metric" or "imperial") and every hour in 0..24, the curve
sample for that hour is a point of the visual list with x = hour * 10,
and its y lies within [0, 100]. -/
theorem C4_visual_points_in_range (cfg : WaveConfig)
    (hmm : cfg.min_temp_c < cfg.max_temp_c) (_hs : 0 < cfg.wave_spread)
    (hu : cfg.unit_system = "metric" ∨ cfg.unit_system = "imperial")
    (hour : ℕ) (hh : hour ≤ 24) :
    ((hour : ℝ) * 10, (visual_point cfg hour).2) ∈ visual_points cfg ∧
      0 ≤ (visual_point cfg hour).2 ∧ (visual_point cfg hour).2 ≤ 100 := by
  have hf : py_upper cfg.unit_system ≠ "F" := by
    rcases hu with hu | hu <;> rw [hu] <;> decide
  have hd : cfg.max_temp_c - cfg.min_temp_c ≠ 0 := sub_ne_zero.mpr (ne_of_gt hmm)
  have hy := visual_point_y_formula cfg hour hd hf
  refine ⟨?_, ?_, ?_⟩
  · rw [visual_points]
    exact List.mem_map.mpr ⟨hour, List.mem_range.mpr (by omega), rfl⟩
  · rw [hy]
    have h1 := temp_normalized_le_one cfg ((hour : ℝ) - 12)
    linarith
  · rw [hy]
    have h0 := temp_normalized_nonneg cfg ((hour : ℝ) - 12)
    linarith

/-- Witness for C4 at the configuration min=20C, max=30C, spread=1,
metric display, hour 6. -/
theorem C4_visual_points_in_range_witness :
    (((6 : ℕ) : ℝ) * 10, (visual_point ⟨20, 30, 1, "metric"⟩ 6).2) ∈
        visual_points ⟨20, 30, 1, "metric"⟩ ∧
      0 ≤ (visual_point ⟨20, 30, 1, "metric"⟩ 6).2 ∧
      (visual_point ⟨20, 30, 1, "metric"⟩ 6).2 ≤ 100 :=
  C4_visual_points_in_range ⟨20, 30, 1, "metric"⟩ (by norm_num) (by norm_num)
    (Or.inl rfl) 6 (by norm_num)

/-! Claim C8: the hours-from-noon normalization. -/

/-- Claim C8: for every wall-clock time (hour ≤ 23, minute ≤ 59) and
every solar-noon time (hour ≤ 23, minute ≤ 59), the normalized
hours-from-noon value of get_current_solar_position lies in [-12, 12]. -/
theorem C8_solar_position_in_range (ch cm sh sm : ℕ)
    (h1 : ch ≤ 23) (h2 : cm ≤ 59) (h3 : sh ≤ 23) (h4 : sm ≤ 59) :
    -12 ≤ get_current_solar_position ch cm sh sm ∧
      get_current_solar_position ch cm sh sm ≤ 12 := by
  have q1 : (ch : ℚ) ≤ 23 := by exact_mod_cast h1
  have q2 : (cm : ℚ) ≤ 59 := by exact_mod_cast h2
  have q3 : (sh : ℚ) ≤ 23 := by exact_mod_cast h3
  have q4 : (sm : ℚ) ≤ 59 := by exact_mod_cast h4
  have p1 : (0 : ℚ) ≤ (ch : ℚ) := Nat.cast_nonneg ch
  have p2 : (0 : ℚ) ≤ (cm : ℚ) := Nat.cast_nonneg cm
  have p3 : (0 : ℚ) ≤ (sh : ℚ) := Nat.cast_nonneg sh
  have p4 : (0 : ℚ) ≤ (sm : ℚ) := Nat.cast_nonneg sm
  rw [get_current_solar_position, normalize_to_half_day, time_to_hours, time_to_hours]
  split_ifs with hgt hlt
  · constructor <;> linarith
  · constructor <;> linarith
  · have hgt' := not_lt.mp hgt
    have hlt' := not_lt.mp hlt
    constructor <;> linarith

/-- Witness for C8 at wall clock 23:30 with solar noon 00:00 (the
midnight-wraparound case). -/
theorem C8_solar_position_in_range_witness :
    -12 ≤ get_current_solar_position 23 30 0 0 ∧
      get_current_solar_position 23 30 0 0 ≤ 12 :=
  C8_solar_position_in_range 23 30 0 0 (by norm_num) (by norm_num) (by norm_num)
    (by norm_num)

/-! Claim C9: the rising indicator. -/

/-- Claim C9: for every hours_from_noon and every wave_spread > 0,
is_temperature_rising returns true iff
-6 * wave_spread ≤ hours_from_noon ≤ 6 * wave_spread, with both
boundaries included (closed interval). -/
theorem C9_rising_iff_closed_interval (h s : ℚ) (_hs : 0 < s) :
    is_temperature_rising h s = true ↔ -6 * s ≤ h ∧ h ≤ 6 * s := by
  rw [is_temperature_rising]
  simp only [decide_eq_true_eq]
  constructor
  · rintro ⟨a, b⟩
    constructor <;> linarith
  · rintro ⟨a, b⟩
    constructor <;> linarith

/-- Witness for C9 at the boundary hours_from_noon = 6, wave_spread = 1:
the edge counts as rising. -/
theorem C9_rising_iff_closed_interval_witness : is_temperature_rising 6 1 = true :=
  (C9_rising_iff_closed_interval 6 1 (by norm_num)).mpr (by norm_num)

/-! Claim C10: the degenerate 7-day forecast at wave_spread = 1.  Both
extrema are sampled where the sine vanishes, so min = max = the rounded
midpoint; the one-decimal display rounding keeps the stored fields from
equaling the exact midpoint whenever it has more than one decimal. -/

theorem forecast_temp_c_min_eq_mid (cfg : WaveConfig) (hs : cfg.wave_spread = 1) :
    forecast_temp_c_min cfg = (cfg.min_temp_c + cfg.max_temp_c) / 2 := by
  rw [forecast_temp_c_min, hs, show Real.pi * 12 / (12 * 1) = Real.pi by ring,
    Real.sin_pi]
  ring

theorem forecast_temp_c_max_eq_mid (cfg : WaveConfig) :
    forecast_temp_c_max cfg = (cfg.min_temp_c + cfg.max_temp_c) / 2 := by
  rw [forecast_temp_c_max, Real.sin_zero]
  ring

/-- Claim C10 (amended): for every valid configuration with
wave_spread = 1 and no step quantization, every record of the 7-day
forecast has min = max, and both equal the midpoint (min + max) / 2
converted to display units and rounded to one decimal place. -/
theorem C10_forecast_min_eq_max (cfg : WaveConfig)
    (_hmm : cfg.min_temp_c < cfg.max_temp_c) (hs : cfg.wave_spread = 1) :
    ∀ rec ∈ generate_7d_forecast cfg, rec.1 = rec.2 ∧
      rec.1 = round1 (convert_from_celsius ((cfg.min_temp_c + cfg.max_temp_c) / 2)
        cfg.unit_system) := by
  intro rec hrec
  rw [generate_7d_forecast] at hrec
  obtain ⟨a, -, rfl⟩ := List.mem_map.mp hrec
  simp only [forecast_7d_record]
  rw [forecast_temp_c_min_eq_mid cfg hs, forecast_temp_c_max_eq_mid]
  exact ⟨rfl, rfl⟩

/-- Witness for C10 at the configuration min=20C, max=30C, spread=1. -/
theorem C10_forecast_min_eq_max_witness :
    (forecast_7d_record ⟨20, 30, 1, "metric"⟩).1 =
        (forecast_7d_record ⟨20, 30, 1, "metric"⟩).2 ∧
      (forecast_7d_record ⟨20, 30, 1, "metric"⟩).1 =
        round1 (convert_from_celsius (((20 : ℝ) + 30) / 2) ("metric")) :=
  C10_forecast_min_eq_max ⟨20, 30, 1, "metric"⟩ (by norm_num) rfl
    (forecast_7d_record ⟨20, 30, 1, "metric"⟩)
    (by rw [generate_7d_forecast]
        exact List.mem_map.mpr ⟨0, List.mem_range.mpr (by norm_num), rfl⟩)

/-- Counterexample for C10 as stated: with min=20C, max=30.05C, spread=1
(a valid configuration) the record fields are both 25.0 after the
one-decimal rounding, which differs from the exact midpoint 25.025. -/
theorem C10_forecast_midpoint_cex :
    forecast_7d_record ⟨20, 30.05, 1, "metric"⟩ = ((25 : ℝ), 25) ∧
      ((20 : ℝ) + 30.05) / 2 ≠ 25 := by
  have hmin : forecast_temp_c_min ⟨20, 30.05, 1, "metric"⟩ = 25.025 := by
    rw [forecast_temp_c_min_eq_mid _ rfl]
    norm_num
  have hmax : forecast_temp_c_max ⟨20, 30.05, 1, "metric"⟩ = 25.025 := by
    rw [forecast_temp_c_max_eq_mid]
    norm_num
  have hr : round1 (25.025 : ℝ) = 25 := by
    rw [round1, show (25.025 : ℝ) * 10 = 250.25 by norm_num,
      pythonRound_of_lt (250.25 : ℝ) 250 (by rw [Int.floor_eq_iff]; norm_num)
        (by norm_num)]
    norm_num
  constructor
  · simp only [forecast_7d_record]
    rw [hmin, hmax, convert_from_celsius_eq_self _ _ (by decide), hr]
  · norm_num
